import Mathlib

/-!
Shallow embedding of the `jenkins` Go package (a client for a remote CI
server's job API).  The repository contains two near-identical copies of the
package source: `src/jenkins.go`, whose JSON decoders use Go's comma-ok type
assertions (mismatches degrade to zero values), and an unnamed duplicate file
(`src/unnamed/part_000`) whose decoders use unchecked type assertions
(mismatches panic).  The first is embedded in the root `Jenkins` namespace,
the duplicate's decoders in `Jenkins.Part000`.

Network and filesystem effects are modelled by scripting the outcome of each
remote/OS call (the value a call would return) and, where a claim depends on
which effects happen, by returning an explicit trace of the operations
performed.  Go `int` is modelled as `Int` (no arithmetic near overflow occurs
in the embedded code); JSON numbers, which the code only ever converts with
`int(...)` or carries opaquely, are modelled as `Int` as well.  A Go
`(value, error)` return is modelled as `Except String value` (the code's
errors are bare `errors.New` strings), or as an explicit pair where the
caller-visible partial value matters.
-/

namespace Jenkins

/-- Model of Go `path.Join` restricted to already-clean segments: empty
elements are dropped and the remainder joined with `/`.  (Go additionally
runs `path.Clean`; every path the embedded code joins is built from clean
segments, so cleaning is the identity on them.) -/
def pathJoin (elems : List String) : String :=
  String.intercalate "/" (elems.filter (fun s => s ≠ ""))

/-- Split a character list at every slash (helper for `pathDir`). -/
def splitSlash : List Char → List Char → List (List Char)
  | [], acc => [acc.reverse]
  | c :: rest, acc =>
    if c = '/' then acc.reverse :: splitSlash rest []
    else splitSlash rest (c :: acc)

/-- Model of Go `path.Dir` on clean, non-rooted paths: everything before the
final slash, or `.` when there is none. -/
def pathDir (p : String) : String :=
  let parts := ((splitSlash p.data []).map (fun cs => String.mk cs)).dropLast
  if parts = [] then "." else String.intercalate "/" parts

/-- JSON values as decoded by Go's `encoding/json` into `interface{}`:
`null` (also standing for an absent object key, since a Go map lookup of a
missing key yields a nil interface), booleans, numbers, strings, arrays and
objects. -/
inductive JValue where
  | null : JValue
  | bool (b : Bool) : JValue
  | num (n : Int) : JValue
  | str (s : String) : JValue
  | arr (xs : List JValue) : JValue
  | obj (fields : List (String × JValue)) : JValue

/-- Lookup of a key in a decoded JSON object (`json["key"]` in Go): a missing
key yields the nil interface, modelled as `JValue.null`. -/
def jlookup : List (String × JValue) → String → JValue
  | [], _ => JValue.null
  | (k2, v) :: rest, k => if k2 = k then v else jlookup rest k

/-- Go comma-ok assertion `x.(string)`: the string, or the zero value `""`. -/
def asString : JValue → String
  | JValue.str s => s
  | _ => ""

/-- Go comma-ok assertion `x.(bool)`: the value, or `false`. -/
def asBool : JValue → Bool
  | JValue.bool b => b
  | _ => false

/-- Go comma-ok assertion `x.(float64)` (followed where the code does so by
`int(...)`): the number, or `0`. -/
def asNum : JValue → Int
  | JValue.num n => n
  | _ => 0

/-- Go comma-ok assertion `x.([]interface{})`: the slice, or the nil slice
(which ranges over nothing), modelled as `[]`. -/
def asArr : JValue → List JValue
  | JValue.arr xs => xs
  | _ => []

/-- Go comma-ok assertion `x.(map[string]interface{})`: the map, or the nil
map (whose every lookup yields nil), modelled as `[]`. -/
def asObjOk : JValue → List (String × JValue)
  | JValue.obj fields => fields
  | _ => []

/-- Go unchecked assertion `x.(string)`: panics (`none`) on mismatch. -/
def asStringRaw : JValue → Option String
  | JValue.str s => some s
  | _ => none

/-- Go unchecked assertion `x.(bool)`: panics (`none`) on mismatch. -/
def asBoolRaw : JValue → Option Bool
  | JValue.bool b => some b
  | _ => none

/-- Go unchecked assertion `x.(float64)`: panics (`none`) on mismatch. -/
def asNumRaw : JValue → Option Int
  | JValue.num n => some n
  | _ => none

/-- Go unchecked assertion `x.([]interface{})`: panics (`none`) on
mismatch. -/
def asArrRaw : JValue → Option (List JValue)
  | JValue.arr xs => some xs
  | _ => none

/-- Go unchecked assertion `x.(map[string]interface{})`: panics (`none`) on
mismatch. -/
def asObjRaw : JValue → Option (List (String × JValue))
  | JValue.obj fields => some fields
  | _ => none

/-- `JenkinsInfo` (src/jenkins.go lines 20-30): snapshot of a job's
top-level state. -/
structure JenkinsInfo where
  name : String
  description : String
  url : String
  buildable : Bool
  inQueue : Bool
  lastBuild : Int
  lastBuildUrl : String
  lastStableBuild : Int
  lastStableBuildUrl : String
deriving DecidableEq

/-- `JenkinsBuildInfo` (src/jenkins.go lines 44-54): snapshot of one build.
The Go `map[string]string` of artifacts is modelled as an association list
with overwrite-on-duplicate insertion (`mapInsert`); iteration order of a Go
map is unspecified, and no embedded claim depends on it. -/
structure JenkinsBuildInfo where
  name : String
  id : Int
  artifacts : List (String × String)
  building : Bool
  duration : Int
  estimatedDuration : Int
  result : String
  timestamp : Int
  url : String
deriving DecidableEq

/-- Insertion into the artifacts map: overwrite an existing key, else
append. -/
def mapInsert : List (String × String) → String → String → List (String × String)
  | [], k, v => [(k, v)]
  | (k2, v2) :: rest, k, v =>
    if k2 = k then (k, v) :: rest else (k2, v2) :: mapInsert rest k v

/-- Go map read `m[k]` on the artifacts map: the value, or `""` for a
missing key. -/
def lookupArt : List (String × String) → String → String
  | [], _ => ""
  | (k2, v) :: rest, k => if k2 = k then v else lookupArt rest k

/-- Artifacts loop of `GetBuildInfo` (src/jenkins.go lines 269-276): each
element is cast with the UNCHECKED assertion `artifact.(map[string]interface{})`
(the single raw cast left in this copy; a non-object element panics, hence
`none`), then `displayPath`/`relativePath` are read with comma-ok assertions
and the pair is inserted only when both are non-empty. -/
def decodeArtifacts : List JValue → List (String × String) → Option (List (String × String))
  | [], acc => some acc
  | a :: rest, acc =>
    match a with
    | JValue.obj fields =>
      let displayPath := asString (jlookup fields "displayPath")
      let relativePath := asString (jlookup fields "relativePath")
      if displayPath ≠ "" ∧ relativePath ≠ "" then
        decodeArtifacts rest (mapInsert acc displayPath relativePath)
      else
        decodeArtifacts rest acc
    | _ => none

/-- Decoding portion of `GetBuildInfo` (src/jenkins.go lines 263-287), from
the decoded JSON object to the record.  Every field uses a comma-ok
assertion (absent/mistyped degrades to the zero value) except the artifacts
element cast, which panics (`none`) on a non-object element.  `result` is
the `BUILDING` sentinel when the field is absent or JSON null. -/
def decodeBuildInfo (j : List (String × JValue)) : Option JenkinsBuildInfo :=
  let name := asString (jlookup j "fullDisplayName")
  let id := asNum (jlookup j "number")
  match decodeArtifacts (asArr (jlookup j "artifacts")) [] with
  | none => none
  | some artifacts =>
    let building := asBool (jlookup j "building")
    let duration := asNum (jlookup j "duration")
    let estimatedDuration := asNum (jlookup j "estimatedDuration")
    let result :=
      match jlookup j "result" with
      | JValue.null => "BUILDING"
      | v => asString v
    let timestamp := asNum (jlookup j "timestamp")
    let url := asString (jlookup j "url")
    some ⟨name, id, artifacts, building, duration, estimatedDuration, result, timestamp, url⟩

/-- Decoding portion of `GetInfo` (src/jenkins.go lines 295-315): every
assertion is comma-ok, and the nested `lastBuild`/`lastStableBuild` objects
are only consulted when present and non-null (a mistyped nested value
degrades to the nil map, whose reads yield zero values).  This decoder is
total: no input panics. -/
def decodeInfo (j : List (String × JValue)) : JenkinsInfo :=
  let name := asString (jlookup j "name")
  let description := asString (jlookup j "description")
  let url := asString (jlookup j "url")
  let buildable := asBool (jlookup j "buildable")
  let inQueue := asBool (jlookup j "inQueue")
  let lbPair :=
    match jlookup j "lastBuild" with
    | JValue.null => ((0 : Int), "")
    | v =>
      let fields := asObjOk v
      (asNum (jlookup fields "number"), asString (jlookup fields "url"))
  let lsbPair :=
    match jlookup j "lastStableBuild" with
    | JValue.null => ((0 : Int), "")
    | v =>
      let fields := asObjOk v
      (asNum (jlookup fields "number"), asString (jlookup fields "url"))
  ⟨name, description, url, buildable, inQueue, lbPair.1, lbPair.2, lsbPair.1, lsbPair.2⟩

end Jenkins

namespace Jenkins.Part000

/-- Artifacts loop of the duplicate file's `GetBuildInfo`
(src/unnamed/part_000 lines 268-271): the element cast and both field casts
are unchecked assertions (panic on mismatch), and the pair is inserted
unconditionally. -/
def decodeArtifacts : List JValue → List (String × String) → Option (List (String × String))
  | [], acc => some acc
  | a :: rest, acc =>
    match a with
    | JValue.obj fields =>
      match jlookup fields "displayPath", jlookup fields "relativePath" with
      | JValue.str displayPath, JValue.str relativePath =>
        decodeArtifacts rest (mapInsert acc displayPath relativePath)
      | _, _ => none
    | _ => none

/-- Decoding portion of the duplicate file's `GetBuildInfo`
(src/unnamed/part_000 lines 263-282): every type assertion is unchecked, so
any absent or mistyped field panics (`none`). -/
def decodeBuildInfo (j : List (String × JValue)) : Option JenkinsBuildInfo :=
  match asStringRaw (jlookup j "fullDisplayName") with
  | none => none
  | some name =>
    match asNumRaw (jlookup j "number") with
    | none => none
    | some id =>
      match asArrRaw (jlookup j "artifacts") with
      | none => none
      | some arr =>
        match decodeArtifacts arr [] with
        | none => none
        | some artifacts =>
          match asBoolRaw (jlookup j "building") with
          | none => none
          | some building =>
            match asNumRaw (jlookup j "duration") with
            | none => none
            | some duration =>
              match asNumRaw (jlookup j "estimatedDuration") with
              | none => none
              | some estimatedDuration =>
                match
                  (match jlookup j "result" with
                   | JValue.null => some "BUILDING"
                   | v => asStringRaw v) with
                | none => none
                | some result =>
                  match asNumRaw (jlookup j "timestamp") with
                  | none => none
                  | some timestamp =>
                    match asStringRaw (jlookup j "url") with
                    | none => none
                    | some url =>
                      some ⟨name, id, artifacts, building, duration,
                            estimatedDuration, result, timestamp, url⟩

/-- Decoding portion of the duplicate file's `GetInfo`
(src/unnamed/part_000 lines 290-308): every type assertion is unchecked, so
any absent or mistyped field panics (`none`). -/
def decodeInfo (j : List (String × JValue)) : Option JenkinsInfo :=
  match asStringRaw (jlookup j "name") with
  | none => none
  | some name =>
    match asStringRaw (jlookup j "description") with
    | none => none
    | some description =>
      match asStringRaw (jlookup j "url") with
      | none => none
      | some url =>
        match asBoolRaw (jlookup j "buildable") with
        | none => none
        | some buildable =>
          match asBoolRaw (jlookup j "inQueue") with
          | none => none
          | some inQueue =>
            match
              (match jlookup j "lastBuild" with
               | JValue.null => some ((0 : Int), "")
               | v =>
                 match asObjRaw v with
                 | none => none
                 | some fields =>
                   match asNumRaw (jlookup fields "number"),
                         asStringRaw (jlookup fields "url") with
                   | some n, some u => some (n, u)
                   | _, _ => none) with
            | none => none
            | some lbPair =>
              match
                (match jlookup j "lastStableBuild" with
                 | JValue.null => some ((0 : Int), "")
                 | v =>
                   match asObjRaw v with
                   | none => none
                   | some fields =>
                     match asNumRaw (jlookup fields "number"),
                           asStringRaw (jlookup fields "url") with
                     | some n, some u => some (n, u)
                     | _, _ => none) with
              | none => none
              | some lsbPair =>
                some ⟨name, description, url, buildable, inQueue,
                      lbPair.1, lbPair.2, lsbPair.1, lsbPair.2⟩

end Jenkins.Part000

namespace Jenkins

/-- `sanitizeID` (src/jenkins.go lines 68-89), the build-identifier
resolver.  The single `GetInfo(name)` call it may make is scripted by
`fetchJob` (the value that call would return); the second component counts
how many such remote calls were made.  On error Go returns the incoming id
alongside the error, which every caller discards, so the error side carries
only the message. -/
def sanitizeID (fetchJob : Except String JenkinsInfo) (id : Int) :
    Except String Int × Nat :=
  if id = -1 then
    match fetchJob with
    | Except.error e => (Except.error e, 1)
    | Except.ok info =>
      if info.lastBuild = 0 then (Except.error "no build available", 1)
      else (Except.ok info.lastBuild, 1)
  else if id = -2 then
    match fetchJob with
    | Except.error e => (Except.error e, 1)
    | Except.ok info =>
      if info.lastStableBuild = 0 then (Except.error "no stable build available", 1)
      else (Except.ok info.lastStableBuild, 1)
  else (Except.ok id, 0)

/-- URL built by `get` (src/jenkins.go lines 104-110): the build id is
appended as a path segment only when `id > 0`; otherwise the job-level
document URL is requested. -/
def getDocURL (server name : String) (id : Int) : String :=
  let nameAndID := if 0 < id then pathJoin [name, toString id] else name
  "http://" ++ pathJoin [server, "job", nameAndID, "api", "json"]

/-- `GetBuildInfo` (src/jenkins.go lines 254-288) as seen by its callers:
resolve the id with `sanitizeID`, then fetch and decode the build document
for the resolved id.  The fetch-and-decode of a concrete id is scripted by
`fetchBuild` (decode leniency is modelled separately by
`decodeBuildInfo`). -/
def GetBuildInfoM (fetchJob : Except String JenkinsInfo)
    (fetchBuild : Int → Except String JenkinsBuildInfo) (id : Int) :
    Except String JenkinsBuildInfo :=
  match (sanitizeID fetchJob id).1 with
  | Except.error e => Except.error e
  | Except.ok id2 => fetchBuild id2

/-- Trigger phase of `DoBuild` (src/jenkins.go lines 139-157): fetch
`JobInfo`, predict `newBuild = lastBuild + 1`, POST a trigger only when the
job is not already `inQueue`.  `postResult` scripts the outcome of the one
possible `post` call (`none` = success).  The result carries the predicted
id `newBuild` — the identifier of the build the rest of `DoBuild` tracks —
and the number of trigger POSTs sent. -/
def doBuildTrigger (fetchJob : Except String JenkinsInfo)
    (postResult : Option String) : Except String (Int × Nat) :=
  match fetchJob with
  | Except.error e => Except.error e
  | Except.ok info =>
    let newBuild := info.lastBuild + 1
    if info.inQueue then Except.ok (newBuild, 0)
    else
      match postResult with
      | some e => Except.error e
      | none => Except.ok (newBuild, 1)

/-- One polling iteration's scripted remote outcomes in the wait loop of
`DoBuild`: what `GetBuildInfo(name, newBuild)` returns this iteration and,
should that fail, what the fallback `GetInfo(name)` returns. -/
structure Poll where
  fetchBuild : Except String JenkinsBuildInfo
  fetchJob : Except String JenkinsInfo

/-- Loop-local flags of `DoBuild`'s wait loop (src/jenkins.go lines
164-166): `inQueue` and `building` are log-once markers, `weird` is the
inconsistency-tolerance flag. -/
structure WaitFlags where
  inQueue : Bool
  building : Bool
  weird : Bool
deriving DecidableEq

/-- Initial flags of the wait loop (src/jenkins.go lines 164-166): all
false. -/
def initFlags : WaitFlags := ⟨false, false, false⟩

/-- Ways `DoBuild`'s wait loop can return.  Go returns `(nil, err)` for both
error exits; the two constructors record the two distinct construction
sites: propagating the fallback `GetInfo` failure (line 174) and the
`errors.New("weird state. could not wait for job to complete.")` abort
(line 179). -/
inductive WaitExit where
  | completed (b : JenkinsBuildInfo) : WaitExit
  | jobFetchFailed (e : String) : WaitExit
  | weirdState : WaitExit
deriving DecidableEq

/-- One iteration of `DoBuild`'s wait loop body (src/jenkins.go lines
167-196): either an exit (`Sum.inl`) or the flags for the next iteration
(`Sum.inr`).  Note that in the source the statement `weird = true` at line
180 stands AFTER the `return` at line 179 and is therefore unreachable:
no iteration ever sets the `weird` flag, and this embedding faithfully
leaves it unchanged on every continuing path. -/
def waitStep (newBuild : Int) (st : WaitFlags) (p : Poll) :
    WaitExit ⊕ WaitFlags :=
  match p.fetchBuild with
  | Except.ok binfo =>
    if binfo.building then Sum.inr ⟨st.inQueue, true, st.weird⟩
    else Sum.inl (WaitExit.completed binfo)
  | Except.error _ =>
    match p.fetchJob with
    | Except.error e => Sum.inl (WaitExit.jobFetchFailed e)
    | Except.ok info =>
      if info.inQueue = false ∨ info.lastBuild + 1 ≠ newBuild then
        if st.weird then Sum.inl WaitExit.weirdState
        else Sum.inr ⟨st.inQueue || info.inQueue, st.building, st.weird⟩
      else Sum.inr ⟨st.inQueue || info.inQueue, st.building, st.weird⟩

/-- The wait loop of `DoBuild` run against a finite scripted trace of polls,
one `Poll` per 1-second iteration.  `none` means the trace was exhausted
with the loop still polling (the source loop has no exit of its own in that
situation). -/
def waitLoop (newBuild : Int) : List Poll → WaitFlags → Option WaitExit
  | [], _ => none
  | p :: ps, st =>
    match waitStep newBuild st p with
    | Sum.inl r => some r
    | Sum.inr st2 => waitLoop newBuild ps st2

/-- Decidable marker for the wait loop having exited through the
weird-state abort. -/
def isWeirdExit : Option WaitExit → Bool
  | some WaitExit.weirdState => true
  | _ => false

/-- Filesystem / remote operations performed by `GetArtifacts`, in order. -/
inductive FsOp where
  | remoteGet (url : String) : FsOp
  | mkdirAll (dir : String) : FsOp
  | createFile (file : String) : FsOp
deriving DecidableEq

/-- Scripted outcomes of the three fallible calls made for one artifact in
`GetArtifacts`' download loop: `getRemote`, `os.MkdirAll`, `os.Create`
(`none` = success).  `io.Copy`'s result is discarded by the source and is
not modelled. -/
structure ArtScript where
  remoteErr : Option String
  mkdirErr : Option String
  createErr : Option String
deriving DecidableEq

/-- Pair each artifact entry with its scripted outcomes; a script shorter
than the artifact list means the remaining calls succeed. -/
def zipScripts : List (String × String) → List ArtScript →
    List ((String × String) × ArtScript)
  | [], _ => []
  | e :: es, [] => (e, ⟨none, none, none⟩) :: zipScripts es []
  | e :: es, s :: ss => (e, s) :: zipScripts es ss

/-- Download loop of `GetArtifacts` (src/jenkins.go lines 230-250).  The
first component mirrors Go's `([]string, error)` return: the `artifacts`
slice (initialised empty at line 228 and — exactly as in the source —
never appended to in the loop) together with the error, if any.  The second
component is the ordered trace of remote/filesystem operations performed. -/
def downloadLoop (server nameAndID output : String) :
    List ((String × String) × ArtScript) → List String → List FsOp →
    (List String × Option String) × List FsOp
  | [], arts, trace => ((arts, none), trace)
  | ((outpath, inpath), sc) :: rest, arts, trace =>
    let url := "http://" ++ pathJoin [server, "job", nameAndID, "artifact", inpath]
    let trace := trace ++ [FsOp.remoteGet url]
    match sc.remoteErr with
    | some e => ((arts, some e), trace)
    | none =>
      let dir := pathJoin [output, pathDir outpath]
      let trace := trace ++ [FsOp.mkdirAll dir]
      match sc.mkdirErr with
      | some e => ((arts, some e), trace)
      | none =>
        let file := pathJoin [output, outpath]
        let trace := trace ++ [FsOp.createFile file]
        match sc.createErr with
        | some e => ((arts, some e), trace)
        | none => downloadLoop server nameAndID output rest arts trace

/-- `GetArtifacts` (src/jenkins.go lines 214-252): resolve the id, fetch the
build (via `GetBuildInfo`, which resolves again — the identity on the now
concrete id in every non-pathological case), require `result == "SUCCESS"`,
then run the download loop over the build's artifacts.  Early exits return
Go's `nil` slice (modelled as `[]`) and have an empty operation trace. -/
def getArtifacts (server name : String) (id : Int) (output : String)
    (fetchJob : Except String JenkinsInfo)
    (fetchBuild : Int → Except String JenkinsBuildInfo)
    (script : List ArtScript) :
    (List String × Option String) × List FsOp :=
  match (sanitizeID fetchJob id).1 with
  | Except.error e => (([], some e), [])
  | Except.ok id2 =>
    match GetBuildInfoM fetchJob fetchBuild id2 with
    | Except.error e => (([], some e), [])
    | Except.ok info =>
      if info.result ≠ "SUCCESS" then
        (([], some "the build you requested failed"), [])
      else
        downloadLoop server (pathJoin [name, toString id2]) output
          (zipScripts info.artifacts script) [] []

/-- `GetArtifactReader` (src/jenkins.go lines 201-212): fetch the build via
`GetBuildInfo` (which resolves the id internally for its own fetch), require
`result == "SUCCESS"`, then request the artifact stream.  The successful
result is the URL handed to `getRemote`; note the source builds it from the
RAW incoming `id` (line 209), not from the resolved one. -/
def getArtifactReader (server name : String) (id : Int) (artifact : String)
    (fetchJob : Except String JenkinsInfo)
    (fetchBuild : Int → Except String JenkinsBuildInfo) :
    Except String String :=
  match GetBuildInfoM fetchJob fetchBuild id with
  | Except.error e => Except.error e
  | Except.ok info =>
    if info.result ≠ "SUCCESS" then
      Except.error "the build you requested failed"
    else
      Except.ok ("http://" ++ pathJoin [server, "job",
        pathJoin [name, toString id], "artifact", lookupArt info.artifacts artifact])

/-- A job snapshot used in concrete evaluations: idle (`inQueue = false`),
last build and last stable build both 5. -/
def job5 : JenkinsInfo := ⟨"j", "", "", true, false, 5, "", 5, ""⟩

/-- A completed successful build #5 with one artifact, output path `a/b`,
remote relative path `r/a`. -/
def build5 : JenkinsBuildInfo := ⟨"j #5", 5, [("a/b", "r/a")], false, 0, 0, "SUCCESS", 0, ""⟩

/-- Scripted build fetch: build 5 exists (as `build5`), every other id is
not fetchable. -/
def fetch5 : Int → Except String JenkinsBuildInfo :=
  fun i => if i = 5 then Except.ok build5 else Except.error "Bad status: 404"

/-- A job snapshot with no builds at all: `lastBuild` and `lastStableBuild`
are both the `0` sentinel. -/
def jobZero : JenkinsInfo := ⟨"z", "", "", true, false, 0, "", 0, ""⟩

/-- A job snapshot that is already busy: `inQueue = true`, last build 5. -/
def jobBusy : JenkinsInfo := ⟨"b", "", "", true, true, 5, "", 5, ""⟩

/-- A completed but failed build #5 (`result = "FAILURE"`). -/
def buildFailed : JenkinsBuildInfo := ⟨"j #5", 5, [], false, 0, 0, "FAILURE", 0, ""⟩

/-- Scripted build fetch: build 5 exists and failed, every other id is not
fetchable. -/
def fetchFailed : Int → Except String JenkinsBuildInfo :=
  fun i => if i = 5 then Except.ok buildFailed else Except.error "Bad status: 404"

end Jenkins

namespace Jenkins

theorem sanitizeID_other (fetchJob : Except String JenkinsInfo) (id : Int)
    (h1 : id ≠ -1) (h2 : id ≠ -2) :
    sanitizeID fetchJob id = (Except.ok id, 0) := by
  simp [sanitizeID, h1, h2]

/-- C8: resolving the "latest" sentinel (-1) against a job whose
`lastBuild` is 0 fails with the no-build-available error, and resolving
"latest stable" (-2) against `lastStableBuild = 0` fails with the
no-stable-build-available error; when the corresponding field is nonzero
the resolver returns exactly that field's value. -/
theorem C8_resolver_zero_sentinel_errors (info : JenkinsInfo) :
    (info.lastBuild = 0 →
      (sanitizeID (Except.ok info) (-1)).1 = Except.error "no build available")
  ∧ (info.lastBuild ≠ 0 →
      (sanitizeID (Except.ok info) (-1)).1 = Except.ok info.lastBuild)
  ∧ (info.lastStableBuild = 0 →
      (sanitizeID (Except.ok info) (-2)).1 = Except.error "no stable build available")
  ∧ (info.lastStableBuild ≠ 0 →
      (sanitizeID (Except.ok info) (-2)).1 = Except.ok info.lastStableBuild) := by
  refine ⟨?_, ?_, ?_, ?_⟩ <;> intro h <;> simp [sanitizeID, h]

/-- Witness for C8 at concrete jobs: `jobZero` has both sentinels 0 and both
resolutions fail; `job5` has both fields 5 and both resolve to them. -/
theorem C8_resolver_zero_sentinel_errors_witness :
    (jobZero.lastBuild = 0 ∧
      (sanitizeID (Except.ok jobZero) (-1)).1 = Except.error "no build available")
  ∧ (jobZero.lastStableBuild = 0 ∧
      (sanitizeID (Except.ok jobZero) (-2)).1 = Except.error "no stable build available")
  ∧ (job5.lastBuild ≠ 0 ∧
      (sanitizeID (Except.ok job5) (-1)).1 = Except.ok job5.lastBuild)
  ∧ (job5.lastStableBuild ≠ 0 ∧
      (sanitizeID (Except.ok job5) (-2)).1 = Except.ok job5.lastStableBuild) :=
  ⟨⟨rfl, (C8_resolver_zero_sentinel_errors jobZero).1 rfl⟩,
   ⟨rfl, (C8_resolver_zero_sentinel_errors jobZero).2.2.1 rfl⟩,
   ⟨by decide, (C8_resolver_zero_sentinel_errors job5).2.1 (by decide)⟩,
   ⟨by decide, (C8_resolver_zero_sentinel_errors job5).2.2.2 (by decide)⟩⟩

/-- C9: for every positive literal build identifier the resolver returns the
identifier unchanged, makes no remote call (call count 0) and produces no
error — whatever the remote job fetch would have returned. -/
theorem C9_positive_literal_unchanged (fetchJob : Except String JenkinsInfo)
    (id : Int) (h : 0 < id) :
    sanitizeID fetchJob id = (Except.ok id, 0) :=
  sanitizeID_other fetchJob id (by omega) (by omega)

/-- Witness for C9 at id 3, with a fetch oracle that would fail if it were
ever consulted. -/
theorem C9_positive_literal_unchanged_witness :
    (0 : Int) < 3 ∧
      sanitizeID (Except.error "unreachable") 3 = (Except.ok 3, 0) :=
  ⟨by decide, C9_positive_literal_unchanged (Except.error "unreachable") 3 (by decide)⟩

/-- C10 (implicit): every identifier other than the sentinels -1 and -2 —
including 0 and negatives below -2 — passes through the resolver unchanged
with no remote call and no error, and for any such non-positive id the
document URL built by `get` omits the id segment, so it is exactly the
job-level document URL. -/
theorem C10_nonsentinel_identity (fetchJob : Except String JenkinsInfo)
    (server name : String) (id : Int) (h1 : id ≠ -1) (h2 : id ≠ -2) :
    sanitizeID fetchJob id = (Except.ok id, 0)
    ∧ (id ≤ 0 → getDocURL server name id =
        "http://" ++ pathJoin [server, "job", name, "api", "json"]) := by
  refine ⟨sanitizeID_other fetchJob id h1 h2, fun hle => ?_⟩
  have hnp : ¬ (0 < id) := by omega
  simp [getDocURL, hnp]

/-- Witness for C10 at id 0: the resolver returns 0 untouched and `get`
would fetch the job-level document for it. -/
theorem C10_nonsentinel_identity_witness :
    ((0 : Int) ≠ -1 ∧ (0 : Int) ≠ -2 ∧ (0 : Int) ≤ 0)
    ∧ sanitizeID (Except.error "unreachable") 0 = (Except.ok 0, 0)
    ∧ getDocURL "s" "j" 0 = "http://" ++ pathJoin ["s", "job", "j", "api", "json"] :=
  ⟨⟨by decide, by decide, by decide⟩,
   (C10_nonsentinel_identity (Except.error "unreachable") "s" "j" 0
      (by decide) (by decide)).1,
   (C10_nonsentinel_identity (Except.error "unreachable") "s" "j" 0
      (by decide) (by decide)).2 (by decide)⟩

/-- C2: when the fetched job is already `inQueue` the trigger sends zero
POSTs and still predicts `lastBuild + 1`; when it is not in queue (and the
POST succeeds) it sends exactly one POST and predicts the same
`lastBuild + 1`. -/
theorem C2_trigger_idempotent_prediction (info : JenkinsInfo)
    (postResult : Option String) :
    (info.inQueue = true →
      doBuildTrigger (Except.ok info) postResult = Except.ok (info.lastBuild + 1, 0))
  ∧ (info.inQueue = false → postResult = none →
      doBuildTrigger (Except.ok info) postResult = Except.ok (info.lastBuild + 1, 1)) := by
  constructor
  · intro h
    simp [doBuildTrigger, h]
  · intro h hp
    simp [doBuildTrigger, h, hp]

/-- Witness for C2: the busy job `jobBusy` triggers nothing and predicts 6;
the idle job `job5` triggers once and predicts 6. -/
theorem C2_trigger_idempotent_prediction_witness :
    (jobBusy.inQueue = true ∧
      doBuildTrigger (Except.ok jobBusy) none = Except.ok (jobBusy.lastBuild + 1, 0))
  ∧ (job5.inQueue = false ∧
      doBuildTrigger (Except.ok job5) none = Except.ok (job5.lastBuild + 1, 1)) :=
  ⟨⟨rfl, (C2_trigger_idempotent_prediction jobBusy none).1 rfl⟩,
   ⟨rfl, (C2_trigger_idempotent_prediction job5 none).2 rfl rfl⟩⟩

end Jenkins

namespace Jenkins

theorem waitStep_weird_exit (newBuild : Int) (st : WaitFlags) (p : Poll)
    (h : waitStep newBuild st p = Sum.inl WaitExit.weirdState) :
    st.weird = true := by
  unfold waitStep at h
  split at h
  · split at h <;> simp_all
  · split at h
    · simp_all
    · split at h
      · split at h <;> simp_all
      · simp_all

theorem waitStep_inr_weird (newBuild : Int) (st : WaitFlags) (p : Poll)
    (st2 : WaitFlags) (h : waitStep newBuild st p = Sum.inr st2) :
    st2.weird = st.weird := by
  unfold waitStep at h
  split at h
  · split at h
    · rw [Sum.inr.injEq] at h
      subst h
      rfl
    · simp_all
  · split at h
    · simp_all
    · split at h
      · split at h
        · simp_all
        · rw [Sum.inr.injEq] at h
          subst h
          rfl
      · rw [Sum.inr.injEq] at h
        subst h
        rfl

theorem waitStep_completed (newBuild : Int) (st : WaitFlags) (p : Poll)
    (b : JenkinsBuildInfo)
    (h : waitStep newBuild st p = Sum.inl (WaitExit.completed b)) :
    p.fetchBuild = Except.ok b ∧ b.building = false := by
  unfold waitStep at h
  split at h
  case _ binfo heq =>
    split at h
    · simp_all
    case _ hb =>
      rw [Sum.inl.injEq, WaitExit.completed.injEq] at h
      subst h
      exact ⟨heq, by simpa using hb⟩
  case _ e heq =>
    split at h
    · simp_all
    · split at h
      · split at h <;> simp_all
      · simp_all

theorem waitLoop_no_weird (newBuild : Int) (trace : List Poll) :
    ∀ st : WaitFlags, st.weird = false →
      isWeirdExit (waitLoop newBuild trace st) = false := by
  induction trace with
  | nil =>
    intro st _
    rfl
  | cons p ps ih =>
    intro st h
    simp only [waitLoop]
    cases hs : waitStep newBuild st p with
    | inl r =>
      cases r with
      | completed b => rfl
      | jobFetchFailed e => rfl
      | weirdState =>
        rw [waitStep_weird_exit newBuild st p hs] at h
        exact absurd h (by simp)
    | inr st2 =>
      exact ih st2 (by rw [waitStep_inr_weird newBuild st p st2 hs, h])

theorem waitLoop_completed_mem (newBuild : Int) (trace : List Poll) :
    ∀ (st : WaitFlags) (b : JenkinsBuildInfo),
      waitLoop newBuild trace st = some (WaitExit.completed b) →
      b.building = false ∧ ∃ p ∈ trace, p.fetchBuild = Except.ok b := by
  induction trace with
  | nil =>
    intro st b h
    simp [waitLoop] at h
  | cons p ps ih =>
    intro st b h
    simp only [waitLoop] at h
    cases hs : waitStep newBuild st p with
    | inl r =>
      rw [hs] at h
      simp only [Option.some.injEq] at h
      subst h
      obtain ⟨hfb, hnb⟩ := waitStep_completed newBuild st p b hs
      exact ⟨hnb, p, List.mem_cons_self p ps, hfb⟩
    | inr st2 =>
      rw [hs] at h
      obtain ⟨hnb, q, hq, hfb⟩ := ih st2 b h
      exact ⟨hnb, q, List.mem_cons_of_mem p hq, hfb⟩

end Jenkins

namespace Jenkins

/-- C1: contrary to the claim, the wait loop NEVER aborts with the
weird-state (`WaitAborted`) error — not on the second consecutive
inconsistent observation, not ever — because in the source the statement
`weird = true` stands after the `return` and is unreachable, so the
tolerance flag is never set.  First conjunct: no trace whatsoever, started
from the loop's initial flags, can exit through the weird-state abort.
Second conjunct: on the claim's own scenario — two consecutive polls in
which the target build is unfetchable and the job reports
`inQueue == false` — the loop is still polling (no exit) instead of
aborting. -/
theorem C1_wait_loop_never_aborts :
    (∀ (newBuild : Int) (trace : List Poll),
        isWeirdExit (waitLoop newBuild trace initFlags) = false)
  ∧ waitLoop 6 [⟨Except.error "Bad status: 404", Except.ok job5⟩,
                ⟨Except.error "Bad status: 404", Except.ok job5⟩] initFlags = none :=
  ⟨fun newBuild trace => waitLoop_no_weird newBuild trace initFlags rfl, by decide⟩

/-- C7: the only way the wait loop returns a `BuildInfo` is a poll whose
build fetch succeeds with `building == false`, and that `BuildInfo` is
returned unchanged (first conjunct: any completed run got its result,
non-building, from a poll of the trace).  While the build is fetchable but
still building (second conjunct) or unfetchable with the job document
readable (third conjunct), the iteration continues to the next poll. -/
theorem C7_wait_loop_only_success_exit :
    (∀ (newBuild : Int) (trace : List Poll) (b : JenkinsBuildInfo),
        waitLoop newBuild trace initFlags = some (WaitExit.completed b) →
        b.building = false ∧ ∃ p ∈ trace, p.fetchBuild = Except.ok b)
  ∧ (∀ (newBuild : Int) (st : WaitFlags) (p : Poll) (binfo : JenkinsBuildInfo),
        p.fetchBuild = Except.ok binfo → binfo.building = true →
        waitStep newBuild st p = Sum.inr ⟨st.inQueue, true, st.weird⟩)
  ∧ (∀ (newBuild : Int) (st : WaitFlags) (p : Poll) (e : String) (info : JenkinsInfo),
        st.weird = false → p.fetchBuild = Except.error e → p.fetchJob = Except.ok info →
        waitStep newBuild st p = Sum.inr ⟨st.inQueue || info.inQueue, st.building, st.weird⟩) := by
  refine ⟨fun newBuild trace b h => waitLoop_completed_mem newBuild trace initFlags b h,
          fun newBuild st p binfo hfb hbld => ?_, fun newBuild st p e info hw hfb hj => ?_⟩
  · unfold waitStep
    rw [hfb]
    simp [hbld]
  · unfold waitStep
    rw [hfb, hj]
    dsimp only
    by_cases hc : (info.inQueue = false ∨ info.lastBuild + 1 ≠ newBuild)
    · rw [if_pos hc, hw]
      simp
    · rw [if_neg hc]

/-- Witness for C7: a one-poll trace in which build #6's fetch yields the
non-building `build5` completes immediately and hands back exactly that
record. -/
theorem C7_wait_loop_only_success_exit_witness :
    waitLoop 6 [⟨Except.ok build5, Except.error "unused"⟩] initFlags
      = some (WaitExit.completed build5)
    ∧ (build5.building = false ∧
        ∃ p ∈ [(⟨Except.ok build5, Except.error "unused"⟩ : Poll)],
          p.fetchBuild = Except.ok build5) :=
  ⟨rfl, C7_wait_loop_only_success_exit.1 6
          [⟨Except.ok build5, Except.error "unused"⟩] build5 rfl⟩

end Jenkins

namespace Jenkins

/-- C3: contrary to the claim, a fully successful `GetArtifacts` run over a
non-empty artifact mapping returns the EMPTY list, not the list of written
output paths — the `artifacts` slice initialised at the top of the loop is
never appended to in the source.  Concretely: job `j`, build 5 with one
artifact (output path `a/b`, remote path `r/a`), every remote/filesystem
call succeeding — the operation trace shows the artifact was fetched, its
directory created and its file created, yet the returned list is `[]` with
no error. -/
theorem C3_success_returns_empty_list :
    getArtifacts "s" "j" 5 "out" (Except.ok job5) fetch5 [⟨none, none, none⟩]
      = ((([] : List String), none),
         [FsOp.remoteGet "http://s/job/j/5/artifact/r/a",
          FsOp.mkdirAll "out/a",
          FsOp.createFile "out/a/b"]) := by decide

/-- C4: contrary to the claim, single-artifact retrieval computes only the
success check from the resolved build number; the artifact URL is built from
the RAW symbolic identifier.  Concretely, with job `j` whose `lastBuild` is
5 and whose build 5 is successful: `GetArtifactReader` called with the
"latest" sentinel -1 passes the success check (it resolves to build 5 inside
`GetBuildInfo`) but requests the artifact under the raw build segment `-1`,
while whole-build retrieval (`GetArtifacts`) on the same inputs requests it
under the resolved segment `5`. -/
theorem C4_reader_url_uses_raw_id :
    getArtifactReader "s" "j" (-1) "a/b" (Except.ok job5) fetch5
      = Except.ok "http://s/job/j/-1/artifact/r/a"
  ∧ (getArtifacts "s" "j" (-1) "out" (Except.ok job5) fetch5 [⟨none, none, none⟩]).2.head?
      = some (FsOp.remoteGet "http://s/job/j/5/artifact/r/a") := by
  exact ⟨rfl, by decide⟩

/-- C5: contrary to the claim, decoding is not crash-free on every decodable
document.  In src/jenkins.go, `GetBuildInfo` still casts each element of the
`artifacts` array with an unchecked assertion, so a document whose
`artifacts` array holds a non-object (here the number 42) panics (`none`),
even though every other absent or mistyped field does degrade to its zero
value (conjuncts 2 and 3: the empty document decodes to the zero records,
with the `BUILDING` sentinel for the absent `result`).  The duplicate copy
of the reader in src/unnamed/part_000 is stricter still: its `GetBuildInfo`
and `GetInfo` panic on any absent field (conjuncts 4 and 5). -/
theorem C5_decoder_panics_on_nonobject_artifact :
    decodeBuildInfo [("building", JValue.bool true),
                     ("artifacts", JValue.arr [JValue.num 42])] = none
  ∧ decodeBuildInfo [] = some ⟨"", 0, [], false, 0, 0, "BUILDING", 0, ""⟩
  ∧ decodeInfo [] = ⟨"", "", "", false, false, 0, "", 0, ""⟩
  ∧ Part000.decodeBuildInfo [] = none
  ∧ Part000.decodeInfo [] = none := by
  exact ⟨rfl, rfl, rfl, rfl, rfl⟩

/-- C6: artifact retrieval on a build whose result is not exactly
`"SUCCESS"` (including the `BUILDING` sentinel) fails with the
build-not-successful error and performs no remote or filesystem operation:
`GetArtifacts` returns an empty operation trace, and `GetArtifactReader`
(which never writes) returns the same error before requesting any
artifact. -/
theorem C6_not_successful_fails_without_writes
    (server name output artifact : String) (id id2 : Int)
    (fetchJob : Except String JenkinsInfo)
    (fetchBuild : Int → Except String JenkinsBuildInfo) (script : List ArtScript)
    (info : JenkinsBuildInfo)
    (hs : (sanitizeID fetchJob id).1 = Except.ok id2)
    (hb : GetBuildInfoM fetchJob fetchBuild id2 = Except.ok info)
    (hbr : GetBuildInfoM fetchJob fetchBuild id = Except.ok info)
    (hr : info.result ≠ "SUCCESS") :
    getArtifacts server name id output fetchJob fetchBuild script
      = ((([] : List String), some "the build you requested failed"), [])
    ∧ getArtifactReader server name id artifact fetchJob fetchBuild
      = Except.error "the build you requested failed" := by
  constructor
  · unfold getArtifacts
    rw [hs]
    dsimp only
    rw [hb]
    dsimp only
    rw [if_pos hr]
  · unfold getArtifactReader
    rw [hbr]
    dsimp only
    rw [if_pos hr]

/-- Witness for C6: build 5 of job `j` completed with `result = "FAILURE"`;
retrieving its artifacts (by literal id 5) fails with the
build-not-successful error and an empty operation trace. -/
theorem C6_not_successful_fails_without_writes_witness :
    ((sanitizeID (Except.ok job5) 5).1 = Except.ok 5
      ∧ GetBuildInfoM (Except.ok job5) fetchFailed 5 = Except.ok buildFailed
      ∧ buildFailed.result ≠ "SUCCESS")
    ∧ getArtifacts "s" "j" 5 "out" (Except.ok job5) fetchFailed []
        = ((([] : List String), some "the build you requested failed"), [])
    ∧ getArtifactReader "s" "j" 5 "a/b" (Except.ok job5) fetchFailed
        = Except.error "the build you requested failed" :=
  ⟨⟨rfl, rfl, by decide⟩,
   C6_not_successful_fails_without_writes "s" "j" "out" "a/b" 5 5
     (Except.ok job5) fetchFailed [] buildFailed
     rfl rfl rfl (by decide)⟩

end Jenkins
